import Mathlib

/-!
Verification of the EMX python client library (emx/utils.py, emx/rest_api.py,
emx/ws_api.py) against its natural-language specification.

The python code is shallowly embedded: python values that can appear as a
request body are modelled by `PyJson`, python byte strings by `List Nat`
(each entry < 256), exceptions by the `PyError` sum returned through
`Except`.  The cryptographic pipeline used by `generate_signature`
(base64 decoding with CPython's forgiving `binascii.a2b_base64` semantics,
HMAC-SHA256, and `base64.encodestring`) is embedded executably so that
concrete signatures can be evaluated inside proofs.
-/

/-- A python value that can appear as a JSON-serializable request body. -/
inductive PyJson where
  | jnull
  | jbool (b : Bool)
  | jint (n : Int)
  | jstr (s : String)
  | jarr (xs : List PyJson)
  | jobj (kvs : List (String × PyJson))

/-- Python truthiness (`if body:`): `None`, `False`, `0`, `""`, `[]`, `{}`
are falsy, everything else truthy. -/
def pyTruthy : PyJson → Bool
  | .jnull => false
  | .jbool b => b
  | .jint n => n != 0
  | .jstr s => s != ""
  | .jarr xs => !xs.isEmpty
  | .jobj kvs => !kvs.isEmpty

/-- Four lowercase hex digits, as used by `json.dumps` for `\uXXXX` escapes. -/
def hexDigit (n : Nat) : Char :=
  if n < 10 then Char.ofNat (48 + n) else Char.ofNat (87 + n)

/-- `\uXXXX` escape body for a code unit below 0x10000. -/
def hex4 (n : Nat) : String :=
  ⟨[hexDigit (n / 4096 % 16), hexDigit (n / 256 % 16),
    hexDigit (n / 16 % 16), hexDigit (n % 16)]⟩

/-- How `json.dumps` (with its default `ensure_ascii=True`) renders one
character inside a JSON string: printable ASCII is kept, `"` and `\` are
escaped, the usual control shorthands are used, and everything else becomes
`\uXXXX` (a surrogate pair above 0xFFFF). -/
def jsonEscapeChar (c : Char) : String :=
  if c = '"' then "\\\""
  else if c = '\\' then "\\\\"
  else if c = Char.ofNat 10 then "\\n"
  else if c = Char.ofNat 9 then "\\t"
  else if c = Char.ofNat 13 then "\\r"
  else if c = Char.ofNat 8 then "\\b"
  else if c = Char.ofNat 12 then "\\f"
  else if 31 < c.toNat && c.toNat < 127 then ⟨[c]⟩
  else if c.toNat < 65536 then "\\u" ++ hex4 c.toNat
  else
    let v := c.toNat - 65536
    "\\u" ++ hex4 (55296 + v / 1024) ++ "\\u" ++ hex4 (56320 + v % 1024)

/-- A JSON string literal as `json.dumps` renders it. -/
def jsonDumpStr (s : String) : String :=
  "\"" ++ String.join (s.data.map jsonEscapeChar) ++ "\""

mutual

/-- `json.dumps(v, separators=(isep, ksep))`: python's JSON serializer with
explicit item and key separators, insertion order preserved. -/
def jsonDumps (isep ksep : String) : PyJson → String
  | .jnull => "null"
  | .jbool true => "true"
  | .jbool false => "false"
  | .jint n => toString n
  | .jstr s => jsonDumpStr s
  | .jarr xs => "[" ++ jsonDumpsArr isep ksep xs ++ "]"
  | .jobj kvs => "\x7b" ++ jsonDumpsObj isep ksep kvs ++ "\x7d"

/-- Array elements joined by the item separator. -/
def jsonDumpsArr (isep ksep : String) : List PyJson → String
  | [] => ""
  | [x] => jsonDumps isep ksep x
  | x :: y :: rest => jsonDumps isep ksep x ++ isep ++ jsonDumpsArr isep ksep (y :: rest)

/-- Object entries `key ksep value` joined by the item separator. -/
def jsonDumpsObj (isep ksep : String) : List (String × PyJson) → String
  | [] => ""
  | [kv] => jsonDumpStr kv.1 ++ ksep ++ jsonDumps isep ksep kv.2
  | kv :: y :: rest =>
      jsonDumpStr kv.1 ++ ksep ++ jsonDumps isep ksep kv.2 ++ isep
        ++ jsonDumpsObj isep ksep (y :: rest)

end

/-- utils.py `body_to_string(body)`:
`json.dumps(body, separators=(',', ':'))` — compact, whitespace-free. -/
def body_to_string (b : PyJson) : String :=
  jsonDumps "," ":" b

/-- UTF-8 encoding of one unicode scalar value (`str.encode()`). -/
def utf8Bytes (c : Char) : List Nat :=
  let n := c.toNat
  if n < 128 then [n]
  else if n < 2048 then [192 + n / 64, 128 + n % 64]
  else if n < 65536 then [224 + n / 4096, 128 + n / 64 % 64, 128 + n % 64]
  else [240 + n / 262144, 128 + n / 4096 % 64, 128 + n / 64 % 64, 128 + n % 64]

/-- UTF-8 bytes of a python string (`s.encode()`). -/
def strBytes (s : String) : List Nat :=
  s.data.flatMap utf8Bytes

/-! ## Base64 (python `base64` module, CPython ≤ 3.8 semantics) -/

/-- The standard base64 alphabet value of a character, `none` for characters
outside it. -/
def b64Table (c : Char) : Option Nat :=
  let n := c.toNat
  if 65 ≤ n && n ≤ 90 then some (n - 65)
  else if 97 ≤ n && n ≤ 122 then some (n - 97 + 26)
  else if 48 ≤ n && n ≤ 57 then some (n - 48 + 52)
  else if c = '+' then some 62
  else if c = '/' then some 63
  else none

/-- The character for a 6-bit value under the standard base64 alphabet. -/
def b64Char (n : Nat) : Char :=
  if n < 26 then Char.ofNat (65 + n)
  else if n < 52 then Char.ofNat (97 + n - 26)
  else if n < 62 then Char.ofNat (48 + n - 52)
  else if n = 62 then '+'
  else '/'

/-- Plain base64 encoding of a byte list, with `=` padding
(`binascii.b2a_base64` without the trailing newline). -/
def b64EncodeCore : List Nat → List Char
  | b0 :: b1 :: b2 :: rest =>
      b64Char (b0 / 4) :: b64Char (b0 % 4 * 16 + b1 / 16)
        :: b64Char (b1 % 16 * 4 + b2 / 64) :: b64Char (b2 % 64)
        :: b64EncodeCore rest
  | [b0, b1] => [b64Char (b0 / 4), b64Char (b0 % 4 * 16 + b1 / 16),
                 b64Char (b1 % 16 * 4), '=']
  | [b0] => [b64Char (b0 / 4), b64Char (b0 % 4 * 16), '=', '=']
  | [] => []

/-- `base64.b64encode`: the base64 text of a byte string. -/
def b64Encode (bs : List Nat) : String :=
  ⟨b64EncodeCore bs⟩

/-- Split a list into chunks of `n + 1` elements.  The first argument of the
recursion is fuel (at least one element is consumed per step, so the list's
length suffices); structural recursion on the fuel keeps the function
reducible inside the kernel. -/
def chunksGo (n : Nat) : Nat → List Nat → List (List Nat)
  | _, [] => []
  | 0, _ :: _ => []
  | fuel + 1, a :: l => (a :: l).take (n + 1) :: chunksGo n fuel ((a :: l).drop (n + 1))

/-- Split a list into chunks of `n + 1` elements. -/
def chunksOf (n : Nat) (l : List Nat) : List (List Nat) :=
  chunksGo n l.length l

/-- `base64.encodestring` (= `encodebytes`): encode 57-byte chunks of input,
terminating every output line — including the last — with a newline. -/
def b64EncodeLines (bs : List Nat) : String :=
  String.join ((chunksOf 56 bs).map (fun c => b64Encode c ++ "\n"))

/-- Whether the next character that the CPython base64 decoder would consider
valid (an alphabet character or the pad `=`) is the pad.  This mirrors
`binascii_find_valid(ascii_data, ascii_len, 1)` called at a pad character:
it scans past the pad itself for the following valid character. -/
def nextValidIsPad : List Char → Bool
  | [] => false
  | c :: cs => if c = '=' then true
               else if (b64Table c).isSome then false
               else nextValidIsPad cs

/-- Residual bit count of the 6-bit accumulator after `qp` data characters
of the current quad (CPython's `leftbits` after the emit step). -/
def b64RemBits : Nat → Nat
  | 0 => 0
  | 1 => 6
  | 2 => 4
  | _ => 2

/-- CPython `binascii.a2b_base64` (the pre-3.10, non-strict algorithm used by
`base64.b64decode(..., validate=False)`): characters outside the alphabet are
skipped; a pad character ends the input when it closes a quad (position 3, or
position 2 followed by another pad), and is skipped otherwise; at the end the
number of consumed data characters must be a multiple of 4, else the call
raises `binascii.Error("Incorrect padding")`, here `none`.  `qp` is the
position inside the current quad, `lc` the bit accumulator, `acc` the output
bytes in reverse. -/
def a2bBase64 : List Char → Nat → Nat → List Nat → Option (List Nat)
  | [], qp, _, acc => if qp = 0 then some acc.reverse else none
  | '=' :: cs, qp, lc, acc =>
      if qp < 2 || (qp == 2 && !nextValidIsPad cs) then a2bBase64 cs qp lc acc
      else some acc.reverse
  | c :: cs, qp, lc, acc =>
      match b64Table c with
      | none => a2bBase64 cs qp lc acc
      | some v =>
          let qp' := (qp + 1) % 4
          let lc' := lc * 64 + v
          if qp' = 1 then a2bBase64 cs qp' lc' acc
          else
            let rem := b64RemBits qp'
            a2bBase64 cs qp' (lc' % 2 ^ rem) (lc' / 2 ^ rem % 256 :: acc)

/-- Decoding failure modes of `base64.b64decode` on a `str` argument. -/
inductive B64DecodeErr where
  | asciiError    -- `ValueError` from `_bytes_from_decode_data` (non-ASCII input)
  | paddingError  -- `binascii.Error("Incorrect padding")`
deriving DecidableEq

/-- `base64.b64decode(s)` for a python `str` argument: the string is first
ASCII-encoded (`_bytes_from_decode_data`, raising a plain `ValueError` on a
non-ASCII character), then decoded by `binascii.a2b_base64`. -/
def pyB64Decode (s : String) : Except B64DecodeErr (List Nat) :=
  if s.data.any (fun c => 127 < c.toNat) then .error .asciiError
  else match a2bBase64 s.data 0 0 [] with
    | none => .error .paddingError
    | some bs => .ok bs

/-! ## SHA-256 and HMAC (python `hashlib` / `hmac`) -/

/-- 2^32, the word modulus of SHA-256. -/
def pow32 : Nat := 4294967296

/-- Right rotation of a 32-bit word. -/
def rotr32 (n x : Nat) : Nat :=
  x / 2 ^ n + x % 2 ^ n * 2 ^ (32 - n)

/-- SHA-256 message-schedule sigma-0. -/
def smallSigma0 (x : Nat) : Nat := rotr32 7 x ^^^ rotr32 18 x ^^^ x / 8

/-- SHA-256 message-schedule sigma-1. -/
def smallSigma1 (x : Nat) : Nat := rotr32 17 x ^^^ rotr32 19 x ^^^ x / 1024

/-- SHA-256 compression Sigma-0. -/
def bigSigma0 (x : Nat) : Nat := rotr32 2 x ^^^ rotr32 13 x ^^^ rotr32 22 x

/-- SHA-256 compression Sigma-1. -/
def bigSigma1 (x : Nat) : Nat := rotr32 6 x ^^^ rotr32 11 x ^^^ rotr32 25 x

/-- The 64 SHA-256 round constants. -/
def shaK : List Nat :=
  [1116352408, 1899447441, 3049323471, 3921009573,
   961987163, 1508970993, 2453635748, 2870763221,
   3624381080, 310598401, 607225278, 1426881987,
   1925078388, 2162078206, 2614888103, 3248222580,
   3835390401, 4022224774, 264347078, 604807628,
   770255983, 1249150122, 1555081692, 1996064986,
   2554220882, 2821834349, 2952996808, 3210313671,
   3336571891, 3584528711, 113926993, 338241895,
   666307205, 773529912, 1294757372, 1396182291,
   1695183700, 1986661051, 2177026350, 2456956037,
   2730485921, 2820302411, 3259730800, 3345764771,
   3516065817, 3600352804, 4094571909, 275423344,
   430227734, 506948616, 659060556, 883997877,
   958139571, 1322822218, 1537002063, 1747873779,
   1955562222, 2024104815, 2227730452, 2361852424,
   2428436474, 2756734187, 3204031479, 3329325298]

/-- The eight SHA-256 working variables. -/
structure Sha256State where
  a : Nat
  b : Nat
  c : Nat
  d : Nat
  e : Nat
  f : Nat
  g : Nat
  h : Nat
deriving DecidableEq

/-- The SHA-256 initial hash value. -/
def shaInit : Sha256State :=
  ⟨1779033703, 3144134277, 1013904242, 2773480762,
   1359893119, 2600822924, 528734635, 1541459225⟩

/-- Big-endian bytes of `n`, fixed width `len`. -/
def natToBytesBE (n len : Nat) : List Nat :=
  (List.range len).map (fun i => n / 2 ^ (8 * (len - 1 - i)) % 256)

/-- Group bytes into big-endian 32-bit words. -/
def bytesToWordsBE : List Nat → List Nat
  | b0 :: b1 :: b2 :: b3 :: rest =>
      (((b0 * 256 + b1) * 256 + b2) * 256 + b3) :: bytesToWordsBE rest
  | _ => []

/-- SHA-256 padding: append `0x80`, zeros up to 56 mod 64, then the bit
length as 8 big-endian bytes. -/
def sha256Pad (msg : List Nat) : List Nat :=
  msg ++ [128] ++ List.replicate ((120 - (msg.length + 1) % 64) % 64) 0
      ++ natToBytesBE (msg.length * 8) 8

/-- Extend the 16 block words by `n` further schedule words. -/
def shaSchedule (w : List Nat) : Nat → List Nat
  | 0 => w
  | n + 1 =>
      let t := (smallSigma1 (w.getD (w.length - 2) 0) + w.getD (w.length - 7) 0
                + smallSigma0 (w.getD (w.length - 15) 0)
                + w.getD (w.length - 16) 0) % pow32
      shaSchedule (w ++ [t]) n

/-- One SHA-256 round: `Ch`, `Maj`, the two big sigmas and the rotation of
the working variables. -/
def shaRound (s : Sha256State) (ki wi : Nat) : Sha256State :=
  let ch := s.e &&& s.f ^^^ (pow32 - 1 - s.e) &&& s.g
  let maj := s.a &&& s.b ^^^ s.a &&& s.c ^^^ s.b &&& s.c
  let t1 := (s.h + bigSigma1 s.e + ch + ki + wi) % pow32
  let t2 := (bigSigma0 s.a + maj) % pow32
  ⟨(t1 + t2) % pow32, s.a, s.b, s.c, (s.d + t1) % pow32, s.e, s.f, s.g⟩

/-- Compress one 64-byte block into the running hash value. -/
def shaCompress (hv : Sha256State) (block : List Nat) : Sha256State :=
  let w := shaSchedule (bytesToWordsBE block) 48
  let s := (shaK.zip w).foldl (fun s p => shaRound s p.1 p.2) hv
  ⟨(hv.a + s.a) % pow32, (hv.b + s.b) % pow32, (hv.c + s.c) % pow32,
   (hv.d + s.d) % pow32, (hv.e + s.e) % pow32, (hv.f + s.f) % pow32,
   (hv.g + s.g) % pow32, (hv.h + s.h) % pow32⟩

/-- Serialize the final hash value, big-endian. -/
def shaStateBytes (s : Sha256State) : List Nat :=
  natToBytesBE s.a 4 ++ natToBytesBE s.b 4 ++ natToBytesBE s.c 4
    ++ natToBytesBE s.d 4 ++ natToBytesBE s.e 4 ++ natToBytesBE s.f 4
    ++ natToBytesBE s.g 4 ++ natToBytesBE s.h 4

/-- `hashlib.sha256(msg).digest()`. -/
def sha256 (msg : List Nat) : List Nat :=
  shaStateBytes ((chunksOf 63 (sha256Pad msg)).foldl shaCompress shaInit)

/-- `hmac.new(key, msg, hashlib.sha256).digest()` (RFC 2104, block size 64). -/
def hmacSha256 (key msg : List Nat) : List Nat :=
  let k0 := if 64 < key.length then sha256 key else key
  let kpad := k0 ++ List.replicate (64 - k0.length) 0
  let ipad := kpad.map (fun b => b ^^^ 54)
  let opad := kpad.map (fun b => b ^^^ 92)
  sha256 (opad ++ sha256 (ipad ++ msg))

/-- A SHA-256 digest is always 32 bytes. -/
theorem sha256_length (msg : List Nat) : (sha256 msg).length = 32 := by
  simp [sha256, shaStateBytes, natToBytesBE]

/-! ## The embedded library functions -/

/-- Python exceptions that the embedded functions can raise. -/
inductive PyError where
  | emxApi (msg : String)      -- utils.EmxApiException
  | valueError (msg : String)  -- an uncaught ValueError escaping to the caller
deriving DecidableEq

/-- The `ValueError` message of `base64._bytes_from_decode_data` on a
non-ASCII `str`. -/
def asciiErrMsg : String := "string argument should contain only ASCII characters"

/-- utils.py `generate_signature`, lines 34–37: a truthy body is serialized
by `body_to_string`, a falsy body (python `None`, but also `""`, `{}`, …)
contributes the empty string. -/
def signatureBody : Option PyJson → String
  | some b => if pyTruthy b then body_to_string b else ""
  | none => ""

/-- utils.py `generate_signature`, line 39:
`message = str(timestamp) + http_method + request_path + body`. -/
def signedMessage (ts : Nat) (m p : String) (body : Option PyJson) : String :=
  toString ts ++ m ++ p ++ signatureBody body

/-- utils.py `generate_signature(api_secret, timestamp, http_method,
request_path, body)`: build the message, base64-decode the secret
(converting only `binascii.Error` into `EmxApiException("b64decode failed:
...")`; the plain `ValueError` raised on a non-ASCII secret propagates), then
return `base64.encodestring(hmac.new(secret, message.encode(),
hashlib.sha256).digest())`. -/
def generate_signature (secret : String) (ts : Nat) (m p : String)
    (body : Option PyJson) : Except PyError String :=
  match pyB64Decode secret with
  | .error .asciiError => .error (.valueError asciiErrMsg)
  | .error .paddingError => .error (.emxApi "b64decode failed: Incorrect padding")
  | .ok key =>
      .ok (b64EncodeLines (hmacSha256 key (strBytes (signedMessage ts m p body))))

/-- The part of a `requests.Response` that the client inspects. -/
structure Response where
  status_code : Nat
  text : String
deriving DecidableEq

/-- utils.py `handle_result`: the decorator wrapping every REST method but
`get_specific_contract`; raises `EmxApiException("Request failed. Reason:
{text}")` when `status_code < 200 or status_code > 300`, else returns the
body text. -/
def handle_result (r : Response) : Except PyError String :=
  if r.status_code < 200 || 300 < r.status_code then
    .error (.emxApi ("Request failed. Reason: " ++ r.text))
  else .ok r.text

/-- rest_api.py `get_specific_contract` response handling: the method is not
decorated with `handle_result`, so the raw `requests.Response` is returned
unconditionally. -/
def get_specific_contract_result (r : Response) : Except PyError Response :=
  .ok r

/-- What `self.ws.recv()` can do inside `receive_msg`: deliver a text frame,
raise `WebSocketTimeoutException`, or raise some other exception whose
`str` is `reason`. -/
inductive RecvOutcome where
  | frame (msg : String)
  | timeout
  | failure (reason : String)

/-- ws_api.py `receive_msg`: return the received frame; map
`WebSocketTimeoutException` to `EmxApiException("No messages received")` and
any other exception to `EmxApiException("Unable to receive msgs. Reason:
{err}")`. -/
def receive_msg : RecvOutcome → Except PyError String
  | .frame m => .ok m
  | .timeout => .error (.emxApi "No messages received")
  | .failure r => .error (.emxApi ("Unable to receive msgs. Reason: " ++ r))

/-- ws_api.py `unsubscribe(self, channels)`, lines 90–94: the control
message dict — its `channels` entry is the literal `["orders"]`; the
`channels` parameter is not used. -/
def unsubscribe_msg (channels : List String) : PyJson :=
  .jobj [("type", .jstr "unsubscribe"),
         ("contract_codes", .jarr []),
         ("channels", .jarr [.jstr "orders"])]

/-- The frame text sent by `unsubscribe`: `json.dumps(msg)` with python's
default separators `(', ', ': ')`. -/
def unsubscribe_frame (channels : List String) : String :=
  jsonDumps ", " ": " (unsubscribe_msg channels)

/-- The control message the claim (and the method's own docstring) expect:
`channels` is the caller's list. -/
def unsubscribe_msg_spec (channels : List String) : PyJson :=
  .jobj [("type", .jstr "unsubscribe"),
         ("contract_codes", .jarr []),
         ("channels", .jarr (channels.map .jstr))]

/-- The credential-carrying state of a `RestApi` instance (rest_api.py
`__init__`). -/
structure RestClient where
  uri : String
  api_key : String
  api_secret : String

/-- The HTTP request a method hands to `requests`: verb, url, the `params`
argument, and the explicit `headers` argument (`none` when the method passes
no headers and the session defaults apply). -/
structure HttpRequest where
  verb : String
  url : String
  params : PyJson
  headers : Option (List (String × String))

/-- rest_api.py `get_account_rank(self, start_time)`: a GET on
`/v1/accounts/rank` with `params={"start_time": start_time}` — no signature
is computed and no headers argument is passed. -/
def get_account_rank_request (c : RestClient) (start_time : String) : HttpRequest :=
  ⟨"GET", c.uri ++ "/v1/accounts/rank",
   .jobj [("start_time", .jstr start_time)], none⟩

/-! ## Helper lemmas -/

set_option maxRecDepth 10000

/-- Decidable equality on `Except`, so that concrete results of the embedded
functions can be evaluated by `decide`. -/
instance exceptDecEq {ε α : Type} [DecidableEq ε] [DecidableEq α] :
    DecidableEq (Except ε α) := fun x y =>
  match x, y with
  | .ok a, .ok b =>
      if h : a = b then .isTrue (by rw [h])
      else .isFalse (fun hc => h (Except.ok.inj hc))
  | .error a, .error b =>
      if h : a = b then .isTrue (by rw [h])
      else .isFalse (fun hc => h (Except.error.inj hc))
  | .ok _, .error _ => .isFalse (fun hc => Except.noConfusion hc)
  | .error _, .ok _ => .isFalse (fun hc => Except.noConfusion hc)

/-- A list no longer than one chunk is split into exactly itself. -/
theorem chunksOf_single (n : Nat) (bs : List Nat) (h1 : bs ≠ [])
    (h2 : bs.length ≤ n + 1) : chunksOf n bs = [bs] := by
  cases bs with
  | nil => exact absurd rfl h1
  | cons a l =>
    show chunksGo n (l.length + 1) (a :: l) = [a :: l]
    rw [chunksGo, List.take_of_length_le h2, List.drop_eq_nil_of_le h2]
    simp [chunksGo]

/-- On at most 57 bytes, `base64.encodestring` is plain base64 plus one
trailing newline. -/
theorem b64EncodeLines_small (bs : List Nat) (h1 : bs ≠ [])
    (h2 : bs.length ≤ 57) : b64EncodeLines bs = b64Encode bs ++ "\n" := by
  rw [b64EncodeLines, chunksOf_single 56 bs h1 h2]
  simp [String.join]

/-- An HMAC-SHA256 tag is 32 bytes. -/
theorem hmacSha256_length (key msg : List Nat) :
    (hmacSha256 key msg).length = 32 := by
  rw [hmacSha256]
  exact sha256_length _

/-- An HMAC-SHA256 tag is nonempty. -/
theorem hmacSha256_ne_nil (key msg : List Nat) : hmacSha256 key msg ≠ [] := by
  have h := hmacSha256_length key msg
  intro hnil
  rw [hnil] at h
  simp at h

/-- When the secret decodes, `generate_signature` returns the plain base64
text of the HMAC-SHA256 tag of the signed message, with the trailing newline
added by `base64.encodestring`. -/
theorem generate_signature_ok (secret : String) (key : List Nat) (ts : Nat)
    (m p : String) (body : Option PyJson)
    (h : pyB64Decode secret = .ok key) :
    generate_signature secret ts m p body =
      .ok (b64Encode (hmacSha256 key (strBytes (signedMessage ts m p body))) ++ "\n") := by
  simp only [generate_signature, h]
  rw [b64EncodeLines_small _ (hmacSha256_ne_nil _ _) (by rw [hmacSha256_length]; omega)]

/-- Appending a newline changes a string. -/
theorem append_newline_ne (s : String) : s ++ "\n" ≠ s := by
  intro h
  have h2 := congrArg String.length h
  rw [String.length_append] at h2
  have h3 : ("\n" : String).length = 1 := rfl
  omega

/-- The classification `handle_result` actually performs: success on any
status in the closed interval [200, 300], the `EmxApiException` carrying the
response text otherwise. -/
theorem handle_result_spec (r : Response) :
    (200 ≤ r.status_code ∧ r.status_code ≤ 300 → handle_result r = .ok r.text)
    ∧ (r.status_code < 200 ∨ 300 < r.status_code →
        handle_result r = .error (.emxApi ("Request failed. Reason: " ++ r.text))) := by
  constructor
  · intro h
    have hc : (r.status_code < 200 || 300 < r.status_code) = false := by
      simp
      omega
    simp [handle_result, hc]
  · intro h
    have hc : (r.status_code < 200 || 300 < r.status_code) = true := by
      simp
      omega
    simp [handle_result, hc]

/-! ## Claims -/

/-- C1 (counterexample): on secret `"c2VjcmV0"`, timestamp 1000, method
`"GET"`, path `"/v1/accounts"` and empty body, `generate_signature` does NOT
return exactly the base64 encoding of HMAC-SHA256("secret",
"1000GET/v1/accounts") — `base64.encodestring` appends a newline. -/
theorem c1_counterexample :
    generate_signature "c2VjcmV0" 1000 "GET" "/v1/accounts" none ≠
      .ok (b64Encode (hmacSha256 (strBytes "secret") (strBytes "1000GET/v1/accounts"))) := by
  intro h
  rw [generate_signature_ok "c2VjcmV0" (strBytes "secret") 1000 "GET" "/v1/accounts" none
      (by decide)] at h
  exact append_newline_ne _ (Except.ok.inj h)

/-- C1 (amended): on those inputs `generate_signature` returns the base64
encoding of HMAC-SHA256("secret", "1000GET/v1/accounts") followed by a
single trailing newline. -/
theorem c1_signature_example :
    generate_signature "c2VjcmV0" 1000 "GET" "/v1/accounts" none =
      .ok (b64Encode (hmacSha256 (strBytes "secret") (strBytes "1000GET/v1/accounts")) ++ "\n") :=
  generate_signature_ok "c2VjcmV0" (strBytes "secret") 1000 "GET" "/v1/accounts" none
    (by decide)

/-- C2 (counterexample): an absent body and the empty-object body `{}` yield
the SAME signature — python's `if body:` treats the empty dict as falsy, so
both contribute the empty string to the signed message. -/
theorem c2_counterexample :
    generate_signature "c2VjcmV0" 1000 "GET" "/v1/accounts" (some (.jobj [])) =
      generate_signature "c2VjcmV0" 1000 "GET" "/v1/accounts" none := rfl

/-- C2 (amended): for every secret, timestamp, method and path, a body that
serializes to the JSON literal `\x7b\x7d` (the empty dict, falsy in python)
produces the same signature as an absent body; only a truthy body
contributes its canonical whitespace-free JSON serialization to the signed
message. -/
theorem c2_falsy_body (secret : String) (ts : Nat) (m p : String) :
    generate_signature secret ts m p (some (.jobj [])) =
      generate_signature secret ts m p none
    ∧ ∀ b : PyJson, pyTruthy b = true →
        signedMessage ts m p (some b) = toString ts ++ m ++ p ++ body_to_string b := by
  constructor
  · rfl
  · intro b hb
    simp [signedMessage, signatureBody, hb]

/-- C2 (witness). -/
theorem c2_witness :
    (generate_signature "c2VjcmV0" 7 "GET" "/v1/fills" (some (.jobj [])) =
      generate_signature "c2VjcmV0" 7 "GET" "/v1/fills" none)
    ∧ (pyTruthy (.jobj [("a", .jint 1)]) = true
    ∧ signedMessage 7 "GET" "/v1/fills" (some (.jobj [("a", .jint 1)])) =
        toString 7 ++ "GET" ++ "/v1/fills" ++ body_to_string (.jobj [("a", .jint 1)])) :=
  ⟨(c2_falsy_body "c2VjcmV0" 7 "GET" "/v1/fills").1,
   by decide,
   (c2_falsy_body "c2VjcmV0" 7 "GET" "/v1/fills").2 _ (by decide)⟩

/-- C3 (counterexample): status 300 lies outside [200, 300) yet
`handle_result` succeeds — the guard is `status_code > 300`, not `>= 300`. -/
theorem c3_counterexample :
    handle_result ⟨300, "redirect"⟩ = .ok "redirect" ∧ ¬(200 ≤ 300 ∧ 300 < 300) :=
  ⟨rfl, by omega⟩

/-- C3 (amended): a wrapped REST call succeeds with the body text unchanged
exactly when the status code is in the CLOSED interval [200, 300]; outside
it, it fails with `EmxApiException` whose message contains the response
text. -/
theorem c3_handle_result (r : Response) :
    (200 ≤ r.status_code ∧ r.status_code ≤ 300 → handle_result r = .ok r.text)
    ∧ (r.status_code < 200 ∨ 300 < r.status_code →
        handle_result r = .error (.emxApi ("Request failed. Reason: " ++ r.text))) :=
  handle_result_spec r

/-- C3 (witness). -/
theorem c3_witness :
    ((200 : Nat) ≤ 204 ∧ (204 : Nat) ≤ 300)
    ∧ handle_result ⟨204, "payload"⟩ = .ok "payload"
    ∧ ((404 : Nat) < 200 ∨ (300 : Nat) < 404)
    ∧ handle_result ⟨404, "not found"⟩ =
        .error (.emxApi ("Request failed. Reason: " ++ "not found")) :=
  ⟨by omega, (c3_handle_result ⟨204, "payload"⟩).1 (by decide),
   by omega, (c3_handle_result ⟨404, "not found"⟩).2 (by decide)⟩

/-- C4 (counterexample): the non-ASCII secret `"é"` is not valid base64 and
`generate_signature` fails on it — but with an uncaught `ValueError` from
`base64._bytes_from_decode_data`, not the distinct
`EmxApiException("b64decode failed: ...")`: only `binascii.Error` is
caught. -/
theorem c4_counterexample :
    generate_signature "é" 1000 "GET" "/v1/accounts" none =
      .error (.valueError asciiErrMsg)
    ∧ PyError.valueError asciiErrMsg ≠
        PyError.emxApi "b64decode failed: Incorrect padding" :=
  ⟨rfl, by decide⟩

/-- C4 (amended): for every timestamp, method, path and body, if base64
decoding of the (ASCII) secret fails with `binascii.Error`, then
`generate_signature` fails with the distinct
`EmxApiException("b64decode failed: Incorrect padding")`, and the outcome
depends only on the secret — never on the other arguments or on any network
state; a non-ASCII secret instead escapes as a generic `ValueError`. -/
theorem c4_padding_auth_error (secret : String) (ts : Nat) (m p : String)
    (body : Option PyJson) (h : pyB64Decode secret = .error .paddingError) :
    generate_signature secret ts m p body =
      .error (.emxApi "b64decode failed: Incorrect padding") := by
  simp [generate_signature, h]

/-- C4 (witness). -/
theorem c4_witness :
    pyB64Decode "a" = .error .paddingError
    ∧ generate_signature "a" 1000 "GET" "/v1/accounts" none =
        .error (.emxApi "b64decode failed: Incorrect padding") :=
  ⟨by decide, c4_padding_auth_error "a" 1000 "GET" "/v1/accounts" none (by decide)⟩

/-- C5 (counterexample): with the truthy body `
{"size": "1"}` the signature is NOT exactly
base64(HMAC-SHA256(secret, message)) — `base64.encodestring` appends a
trailing newline. -/
theorem c5_counterexample :
    generate_signature "c2VjcmV0" 1000 "POST" "/v1/orders" (some (.jobj [("size", .jstr "1")])) ≠
      .ok (b64Encode (hmacSha256 (strBytes "secret")
        (strBytes ("1000POST/v1/orders" ++ body_to_string (.jobj [("size", .jstr "1")]))))) := by
  intro h
  rw [generate_signature_ok "c2VjcmV0" (strBytes "secret") 1000 "POST" "/v1/orders"
      (some (.jobj [("size", .jstr "1")])) (by decide)] at h
  exact append_newline_ne _ (Except.ok.inj h)

/-- C5 (amended): for every decodable secret, timestamp, method, path and
truthy body, the signed message is the concatenation of the decimal
timestamp, the method, the path and the body's canonical JSON serialization,
in that order, and the signature is base64(HMAC-SHA256(decoded secret,
message)) followed by the trailing newline of `base64.encodestring`. -/
theorem c5_message_and_signature (secret : String) (key : List Nat) (ts : Nat)
    (m p : String) (b : PyJson) (hdec : pyB64Decode secret = .ok key)
    (htr : pyTruthy b = true) :
    signedMessage ts m p (some b) = toString ts ++ m ++ p ++ body_to_string b
    ∧ generate_signature secret ts m p (some b) =
        .ok (b64Encode (hmacSha256 key
          (strBytes (toString ts ++ m ++ p ++ body_to_string b))) ++ "\n") := by
  have hmsg : signedMessage ts m p (some b) = toString ts ++ m ++ p ++ body_to_string b := by
    simp [signedMessage, signatureBody, htr]
  refine ⟨hmsg, ?_⟩
  rw [generate_signature_ok secret key ts m p (some b) hdec, hmsg]

/-- C5 (witness). -/
theorem c5_witness :
    pyB64Decode "c2VjcmV0" = .ok (strBytes "secret")
    ∧ pyTruthy (.jobj [("size", .jstr "2")]) = true
    ∧ signedMessage 99 "POST" "/v1/orders" (some (.jobj [("size", .jstr "2")])) =
        toString 99 ++ "POST" ++ "/v1/orders" ++ body_to_string (.jobj [("size", .jstr "2")])
    ∧ generate_signature "c2VjcmV0" 99 "POST" "/v1/orders" (some (.jobj [("size", .jstr "2")])) =
        .ok (b64Encode (hmacSha256 (strBytes "secret")
          (strBytes (toString 99 ++ "POST" ++ "/v1/orders"
            ++ body_to_string (.jobj [("size", .jstr "2")])))) ++ "\n") :=
  ⟨by decide, by decide,
   (c5_message_and_signature "c2VjcmV0" (strBytes "secret") 99 "POST" "/v1/orders"
      (.jobj [("size", .jstr "2")]) (by decide) (by decide)).1,
   (c5_message_and_signature "c2VjcmV0" (strBytes "secret") 99 "POST" "/v1/orders"
      (.jobj [("size", .jstr "2")]) (by decide) (by decide)).2⟩

/-- C6: `generate_signature` is deterministic — it is embedded as a pure
function of its five arguments (the python code reads no global state and
uses no randomness), so equal inputs give byte-for-byte equal signatures. -/
theorem c6_deterministic (s₁ s₂ : String) (t₁ t₂ : Nat) (m₁ m₂ p₁ p₂ : String)
    (b₁ b₂ : Option PyJson) (hs : s₁ = s₂) (ht : t₁ = t₂) (hm : m₁ = m₂)
    (hp : p₁ = p₂) (hb : b₁ = b₂) :
    generate_signature s₁ t₁ m₁ p₁ b₁ = generate_signature s₂ t₂ m₂ p₂ b₂ := by
  subst hs ht hm hp hb
  rfl

/-- C6 (witness). -/
theorem c6_witness :
    generate_signature "c2VjcmV0" 42 "GET" "/v1/keys" none =
      generate_signature "c2VjcmV0" 42 "GET" "/v1/keys" none :=
  c6_deterministic "c2VjcmV0" "c2VjcmV0" 42 42 "GET" "GET" "/v1/keys" "/v1/keys"
    none none rfl rfl rfl rfl rfl

/-- C7: `unsubscribe` ignores its `channels` parameter — the frame sent for
`["ticker"]` carries the hardcoded channel list `["orders"]`, contradicting
the method's own docstring ("channels list to unsubscribe from") and the
claimed control message. -/
theorem c7_hardcoded_channels :
    unsubscribe_frame ["ticker"] =
      "\x7b\"type\": \"unsubscribe\", \"contract_codes\": [], \"channels\": [\"orders\"]\x7d"
    ∧ unsubscribe_frame ["ticker"] ≠ jsonDumps ", " ": " (unsubscribe_msg_spec ["ticker"]) :=
  ⟨by decide, by decide⟩

/-- C8: `receive_msg` returns an arriving raw text frame unchanged; an
underlying receive timeout becomes the distinct
`EmxApiException("No messages received")`; any other receive failure is
surfaced as `EmxApiException("Unable to receive msgs. Reason: ...")`
carrying the reason — and the timeout error differs from every such failure
error.  (One receive outcome maps to one result: nothing is retried.) -/
theorem c8_receive_classification (m r : String) :
    receive_msg (.frame m) = .ok m
    ∧ receive_msg .timeout = .error (.emxApi "No messages received")
    ∧ receive_msg (.failure r) =
        .error (.emxApi ("Unable to receive msgs. Reason: " ++ r))
    ∧ receive_msg .timeout ≠ receive_msg (.failure r) := by
  refine ⟨rfl, rfl, rfl, ?_⟩
  intro h
  have h1 := Except.error.inj h
  injection h1 with h2
  have h3 := congrArg String.length h2
  rw [String.length_append] at h3
  have h4 : ("No messages received" : String).length = 20 := rfl
  have h5 : ("Unable to receive msgs. Reason: " : String).length = 32 := rfl
  omega

/-- C9 (implicit): `get_specific_contract` is not wrapped by
`handle_result`, so it returns the raw response object unchanged for every
status code and never raises — while any `handle_result`-wrapped operation
fails on a non-success status. -/
theorem c9_specific_contract_raw (r : Response) :
    get_specific_contract_result r = .ok r
    ∧ (r.status_code < 200 ∨ 300 < r.status_code →
        handle_result r = .error (.emxApi ("Request failed. Reason: " ++ r.text))) :=
  ⟨rfl, (handle_result_spec r).2⟩

/-- C9 (witness). -/
theorem c9_witness :
    get_specific_contract_result ⟨404, "missing"⟩ = .ok ⟨404, "missing"⟩
    ∧ ((404 : Nat) < 200 ∨ (300 : Nat) < 404)
    ∧ handle_result ⟨404, "missing"⟩ =
        .error (.emxApi ("Request failed. Reason: " ++ "missing")) :=
  ⟨(c9_specific_contract_raw ⟨404, "missing"⟩).1, by omega,
   (c9_specific_contract_raw ⟨404, "missing"⟩).2 (by decide)⟩

/-- C10 (implicit): `get_account_rank` signs nothing and attaches no
authentication headers: the request it issues is identical for two clients
differing only in `api_key` and `key_secret`, and it passes no headers
argument at all. -/
theorem c10_rank_unauthenticated (uri k₁ sec₁ k₂ sec₂ start_time : String) :
    get_account_rank_request ⟨uri, k₁, sec₁⟩ start_time =
      get_account_rank_request ⟨uri, k₂, sec₂⟩ start_time
    ∧ (get_account_rank_request ⟨uri, k₁, sec₁⟩ start_time).headers = none :=
  ⟨rfl, rfl⟩
